import Mathlib

/-!
Shallow embedding of the `unit-tests-demo` repository: the `Execute`
orchestration function of `main.go`, its two collaborator interfaces
`IPGetter` and `FileWriter`, and the concrete adapter
`Ipify.GetPublicIP` of `internal/ipify.go`.

Go conventions used in the embedding:
* an `error` value is `Option GoError` (`none` is Go's `nil` error);
* a `*string` pointer is `Option String` (`none` is a `nil` pointer);
* a `[]byte` slice is `List Nat` (each entry one byte value);
* `fs.FileMode` is a `Nat` (the permission bits).

External effects (the HTTP round trip, the body stream read and the
standard-library JSON decoder) are supplied as parameters of an
environment record, so a theorem quantifies over their outcomes.
-/

namespace UnitTestsDemo

/-- A Go `error` value, identified by its message. -/
abbrev GoError := String

/-- UTF-8 encoding of one character, each byte a `Nat` below 256. -/
def utf8EncodeCharNat (c : Char) : List Nat :=
  let v := c.toNat
  if v ≤ 0x7f then
    [v]
  else if v ≤ 0x7ff then
    [(((v >>> 6) % 256) &&& 0x1f) ||| 0xc0,
     ((v % 256) &&& 0x3f) ||| 0x80]
  else if v ≤ 0xffff then
    [(((v >>> 12) % 256) &&& 0x0f) ||| 0xe0,
     (((v >>> 6) % 256) &&& 0x3f) ||| 0x80,
     ((v % 256) &&& 0x3f) ||| 0x80]
  else
    [(((v >>> 18) % 256) &&& 0x07) ||| 0xf0,
     (((v >>> 12) % 256) &&& 0x3f) ||| 0x80,
     (((v >>> 6) % 256) &&& 0x3f) ||| 0x80,
     ((v % 256) &&& 0x3f) ||| 0x80]

/-- Go's `[]byte(s)`: the raw byte-for-byte content of the string. A Go
string is a byte string (here the UTF-8 encoding of the characters), and
the conversion copies it unchanged. -/
def goBytes (s : String) : List Nat :=
  s.data.flatMap utf8EncodeCharNat

/-- The `IPGetter` interface of `main.go`: `GetPublicIP() (*string, error)`.
An implementer is modelled by the pair the single call returns. -/
structure IPGetter where
  getPublicIP : Option String × Option GoError

/-- The `FileWriter` interface of `main.go`:
`Write(filename string, data []byte, perm fs.FileMode) error`. -/
structure FileWriter where
  write : String → List Nat → Nat → Option GoError

/-- An observable step of `Execute`: a call to a collaborator method. -/
inductive Event where
  | getPublicIPCall : Event
  | writeCall (filename : String) (data : List Nat) (perm : Nat) : Event
deriving DecidableEq

/-- `true` exactly on a `writeCall` event. -/
def Event.isWrite : Event → Bool
  | .writeCall _ _ _ => true
  | .getPublicIPCall => false

/-- `true` exactly on a `getPublicIPCall` event. -/
def Event.isGet : Event → Bool
  | .writeCall _ _ _ => false
  | .getPublicIPCall => true

/-- How `Execute` finishes: it returns a Go error value (`ret none` is the
`nil`-error success return), or it faults dereferencing a `nil` pointer. -/
inductive ExecOutcome where
  | ret (err : Option GoError) : ExecOutcome
  | nilDeref : ExecOutcome
deriving DecidableEq

/-- `true` exactly on the `nilDeref` fault outcome. -/
def ExecOutcome.isNilDeref : ExecOutcome → Bool
  | .nilDeref => true
  | .ret _ => false

/-- The `Execute` function of `main.go`, together with the trace of the
collaborator calls it makes:

```go
func Execute(ipGetter IPGetter, fileWriter FileWriter, outputFile string) error {
    publicIP, err := ipGetter.GetPublicIP()
    if err != nil {
        return err
    }
    return fileWriter.Write(outputFile, []byte(*publicIP), 0644)
}
```

The dereference `*publicIP` of a `nil` pointer is the `nilDeref` outcome. -/
def Execute (ipGetter : IPGetter) (fileWriter : FileWriter) (outputFile : String) :
    ExecOutcome × List Event :=
  match ipGetter.getPublicIP with
  | (_, some e) => (ExecOutcome.ret (some e), [Event.getPublicIPCall])
  | (none, none) => (ExecOutcome.nilDeref, [Event.getPublicIPCall])
  | (some s, none) =>
      (ExecOutcome.ret (fileWriter.write outputFile (goBytes s) 0o644),
       [Event.getPublicIPCall, Event.writeCall outputFile (goBytes s) 0o644])

/-- Number of `writeCall` events in a trace. -/
def countWrites (tr : List Event) : Nat := tr.countP (fun ev => ev.isWrite)

/-- Number of `getPublicIPCall` events in a trace. -/
def countGets (tr : List Event) : Nat := tr.countP (fun ev => ev.isGet)

/-- Environment of the `Ipify.GetPublicIP` adapter of `internal/ipify.go`:
the outcomes of its three external steps. `httpGet` is the outcome of
`http.Get("https://api.ipify.org?format=json")`, a response body stream
modelled by its byte content; `readAll` is the outcome of
`io.ReadAll(resp.Body)` on that stream; `jsonUnmarshal` is the outcome of
`json.Unmarshal(body, &result)` decoding into a Go `map[string]string`,
modelled as an association list. -/
structure IpifyEnv where
  httpGet : Except GoError (List Nat)
  readAll : List Nat → Except GoError (List Nat)
  jsonUnmarshal : List Nat → Except GoError (List (String × String))

/-- Go map read `m[k]` on a `map[string]string`: the stored value, or the
zero value `""` when the key is absent. -/
def goMapGet (m : List (String × String)) (k : String) : String :=
  (m.lookup k).getD ""

/-- The `GetPublicIP` method of `internal/ipify.go`:

```go
func (i *Ipify) GetPublicIP() (*string, error) {
    resp, err := http.Get("https://api.ipify.org?format=json")
    if err != nil { return nil, err }
    body, err := io.ReadAll(resp.Body)
    if err != nil { return nil, err }
    var result map[string]string
    if err := json.Unmarshal(body, &result); err != nil { return nil, err }
    ip := result["ip"]
    return &ip, nil
}
```

`&ip` is the address of a local variable, so the success pointer is never
`nil`. -/
def ipifyGetPublicIP (env : IpifyEnv) : Option String × Option GoError :=
  match env.httpGet with
  | .error e => (none, some e)
  | .ok stream =>
    match env.readAll stream with
    | .error e => (none, some e)
    | .ok body =>
      match env.jsonUnmarshal body with
      | .error e => (none, some e)
      | .ok result => (some (goMapGet result "ip"), none)

/-- A getter that fails: `GetPublicIP` returns `(nil, error)`. -/
def failingGetter : IPGetter := ⟨(none, some "fetch failed")⟩

/-- The getter of the repository's test: returns `"184.162.7.66"`, no error. -/
def okGetter : IPGetter := ⟨(some "184.162.7.66", none)⟩

/-- A writer whose `Write` always succeeds (returns `nil`). -/
def okWriter : FileWriter := ⟨fun _ _ _ => none⟩

/-- An environment in which the HTTP get, the body read and the JSON decode
all succeed, and the decoded object is `{}`: it has no `ip` field. -/
def envNoIpField : IpifyEnv :=
  ⟨Except.ok [], fun stream => Except.ok stream, fun _ => Except.ok []⟩

/-- An environment in which every stage succeeds and the decoded object
carries an `ip` field, as the real service answers. -/
def envOk : IpifyEnv :=
  ⟨Except.ok [], fun stream => Except.ok stream,
    fun _ => Except.ok [("ip", "184.162.7.66")]⟩

/- Helper lemmas: the three-way case analysis of `Execute`. -/

/-- When `GetPublicIP` returns an error, `Execute` returns it after the
single fetch call. -/
theorem execute_err_case (g : IPGetter) (f : FileWriter) (o : String) (e : GoError)
    (h : g.getPublicIP.2 = some e) :
    Execute g f o = (ExecOutcome.ret (some e), [Event.getPublicIPCall]) := by
  rcases hg : g.getPublicIP with ⟨p, err⟩
  rw [hg] at h
  simp only at h
  subst h
  cases p <;> simp [Execute, hg]

/-- When `GetPublicIP` succeeds with a non-nil pointer, `Execute` performs
the write and returns its result. -/
theorem execute_ok_case (g : IPGetter) (f : FileWriter) (o s : String)
    (h : g.getPublicIP = (some s, none)) :
    Execute g f o = (ExecOutcome.ret (f.write o (goBytes s) 0o644),
      [Event.getPublicIPCall, Event.writeCall o (goBytes s) 0o644]) := by
  simp [Execute, h]

/-- When `GetPublicIP` returns `(nil, nil)`, `Execute` faults on the
dereference after the single fetch call. -/
theorem execute_nil_case (g : IPGetter) (f : FileWriter) (o : String)
    (h : g.getPublicIP = (none, none)) :
    Execute g f o = (ExecOutcome.nilDeref, [Event.getPublicIPCall]) := by
  simp [Execute, h]

/-- Any `writeCall` event in a trace of `Execute` comes from the success
case: the fetched string determines its payload, and its destination and
permission arguments are the forwarded ones. -/
theorem write_event_shape (g : IPGetter) (f : FileWriter) (o : String)
    (fn : String) (d : List Nat) (p : Nat)
    (hmem : Event.writeCall fn d p ∈ (Execute g f o).2) :
    ∃ s, g.getPublicIP = (some s, none) ∧ fn = o ∧ d = goBytes s ∧ p = 0o644 := by
  rcases hg : g.getPublicIP with ⟨pip, err⟩
  cases err with
  | some e =>
    rw [execute_err_case g f o e (by rw [hg])] at hmem
    simp at hmem
  | none =>
    cases pip with
    | none =>
      rw [execute_nil_case g f o (by rw [hg])] at hmem
      simp at hmem
    | some s =>
      rw [execute_ok_case g f o s (by rw [hg])] at hmem
      simp at hmem
      exact ⟨s, rfl, hmem.1, hmem.2.1, hmem.2.2⟩

/-- C1: for every `IPGetter` whose `GetPublicIP` returns a non-nil error,
`Execute` returns exactly that error, and the `FileWriter`'s `Write` method
is never invoked (zero `writeCall` events in the trace). -/
theorem execute_fetch_error_short_circuits
    (g : IPGetter) (f : FileWriter) (o : String) (e : GoError)
    (h : g.getPublicIP.2 = some e) :
    (Execute g f o).1 = ExecOutcome.ret (some e) ∧
    countWrites (Execute g f o).2 = 0 := by
  rw [execute_err_case g f o e h]
  exact ⟨rfl, rfl⟩

/-- Witness for C1: a getter failing with `"fetch failed"` makes `Execute`
return that very error with no write call. -/
theorem execute_fetch_error_short_circuits_witness :
    (Execute failingGetter okWriter "output.txt").1
        = ExecOutcome.ret (some "fetch failed") ∧
    countWrites (Execute failingGetter okWriter "output.txt").2 = 0 :=
  execute_fetch_error_short_circuits failingGetter okWriter "output.txt"
    "fetch failed" rfl

/-- C2: for every `IPGetter` whose `GetPublicIP` succeeds with a non-nil
pointer to `s`, `Execute` calls `Write` exactly once and returns exactly the
result `Write` produces (nil on write success, the write's error on write
failure). -/
theorem execute_success_returns_write_result
    (g : IPGetter) (f : FileWriter) (o s : String)
    (h : g.getPublicIP = (some s, none)) :
    (Execute g f o).1 = ExecOutcome.ret (f.write o (goBytes s) 0o644) ∧
    countWrites (Execute g f o).2 = 1 := by
  rw [execute_ok_case g f o s h]
  exact ⟨rfl, rfl⟩

/-- Witness for C2: the repository test's getter succeeds, and `Execute`
returns the writer's result after one write call. -/
theorem execute_success_returns_write_result_witness :
    (Execute okGetter okWriter "output.txt").1
        = ExecOutcome.ret (okWriter.write "output.txt" (goBytes "184.162.7.66") 0o644) ∧
    countWrites (Execute okGetter okWriter "output.txt").2 = 1 :=
  execute_success_returns_write_result okGetter okWriter "output.txt"
    "184.162.7.66" rfl

/-- C3: whenever `GetPublicIP` succeeds with a pointer to `s`, the data
argument of any `Write` call made by `Execute` is exactly the byte-for-byte
encoding of `s`, with no transformation. -/
theorem execute_payload_fidelity
    (g : IPGetter) (f : FileWriter) (o s : String)
    (h : g.getPublicIP = (some s, none))
    (fn : String) (d : List Nat) (p : Nat)
    (hmem : Event.writeCall fn d p ∈ (Execute g f o).2) :
    d = goBytes s := by
  obtain ⟨t, ht, _, hd, _⟩ := write_event_shape g f o fn d p hmem
  rw [h] at ht
  simp only [Prod.mk.injEq, Option.some.injEq] at ht
  rw [hd, ht.1]

/-- Witness for C3: with the test's getter the write call carries exactly
the bytes of `"184.162.7.66"`. -/
theorem execute_payload_fidelity_witness :
    goBytes "184.162.7.66" = goBytes "184.162.7.66" :=
  execute_payload_fidelity okGetter okWriter "output.txt" "184.162.7.66" rfl
    "output.txt" (goBytes "184.162.7.66") 0o644
    (List.Mem.tail _ (List.Mem.head _))

/-- C4: in every invocation of `Execute`, `GetPublicIP` is called exactly
once and first, `Write` is called at most once and only if `GetPublicIP`
succeeded with a non-nil pointer, and in every successful run the trace is
exactly one fetch followed by one write. -/
theorem execute_exactly_once (g : IPGetter) (f : FileWriter) (o : String) :
    countGets (Execute g f o).2 = 1 ∧
    countWrites (Execute g f o).2 ≤ 1 ∧
    (Execute g f o).2.head? = some Event.getPublicIPCall ∧
    (countWrites (Execute g f o).2 = 1 → ∃ s, g.getPublicIP = (some s, none)) ∧
    ((Execute g f o).1 = ExecOutcome.ret none →
      ∃ s, g.getPublicIP = (some s, none) ∧
        (Execute g f o).2
          = [Event.getPublicIPCall, Event.writeCall o (goBytes s) 0o644]) := by
  rcases hg : g.getPublicIP with ⟨pip, err⟩
  cases err with
  | some e =>
    rw [execute_err_case g f o e (by rw [hg])]
    refine ⟨rfl, by show countWrites [Event.getPublicIPCall] ≤ 1; decide, rfl,
      fun hcount => absurd (show countWrites [Event.getPublicIPCall] = 1 from hcount)
        (by decide), fun hres => ?_⟩
    simp at hres
  | none =>
    cases pip with
    | none =>
      rw [execute_nil_case g f o (by rw [hg])]
      refine ⟨rfl, by show countWrites [Event.getPublicIPCall] ≤ 1; decide, rfl,
        fun hcount => absurd (show countWrites [Event.getPublicIPCall] = 1 from hcount)
          (by decide), fun hres => ?_⟩
      simp at hres
    | some s =>
      rw [execute_ok_case g f o s (by rw [hg])]
      exact ⟨rfl, le_refl 1, rfl, fun _ => ⟨s, rfl⟩, fun _ => ⟨s, rfl, rfl⟩⟩

/-- C5 counterexample: in an environment where the HTTP get, the body read
and the JSON decode all succeed and the decoded object has no `ip` field,
`Ipify.GetPublicIP` returns a nil error — it does not fail — together with a
pointer to the empty string (the Go map zero value). -/
theorem ipify_missing_ip_field_no_error :
    (ipifyGetPublicIP envNoIpField).2 = none ∧
    (ipifyGetPublicIP envNoIpField).1 = some "" :=
  ⟨rfl, rfl⟩

/-- C5 (amended): after successfully fetching and JSON-decoding the
lookup-service response, when the decoded object does not contain an `ip`
field, `Ipify.GetPublicIP` does not fail: it returns a nil error and a
non-nil pointer to the empty string. -/
theorem ipify_missing_ip_field_returns_empty
    (env : IpifyEnv) (stream body : List Nat) (m : List (String × String))
    (h1 : env.httpGet = Except.ok stream)
    (h2 : env.readAll stream = Except.ok body)
    (h3 : env.jsonUnmarshal body = Except.ok m)
    (h4 : m.lookup "ip" = none) :
    ipifyGetPublicIP env = (some "", none) := by
  simp [ipifyGetPublicIP, h1, h2, h3, goMapGet, h4]

/-- Witness for the amended C5: the all-success environment decoding `{}`. -/
theorem ipify_missing_ip_field_returns_empty_witness :
    ipifyGetPublicIP envNoIpField = (some "", none) :=
  ipify_missing_ip_field_returns_empty envNoIpField [] [] [] rfl rfl rfl rfl

/-- C6: for every `outputFile` supplied to `Execute`, whenever `Write` is
invoked its filename argument is exactly that `outputFile`, forwarded
unchanged. -/
theorem execute_destination_passthrough
    (g : IPGetter) (f : FileWriter) (o : String)
    (fn : String) (d : List Nat) (p : Nat)
    (hmem : Event.writeCall fn d p ∈ (Execute g f o).2) :
    fn = o := by
  obtain ⟨_, _, hfn, _, _⟩ := write_event_shape g f o fn d p hmem
  exact hfn

/-- Witness for C6: with the test's inputs the write call's filename is the
supplied `"output.txt"`. -/
theorem execute_destination_passthrough_witness :
    "output.txt" = "output.txt" :=
  execute_destination_passthrough okGetter okWriter "output.txt"
    "output.txt" (goBytes "184.162.7.66") 0o644
    (List.Mem.tail _ (List.Mem.head _))

/-- C7: `Execute` returns success (a nil error) if and only if both steps
succeed — `GetPublicIP` returns a nil error (with some string `s`) and the
subsequent `Write` on the bytes of `s` returns a nil error; and when the
fetch fails, no write is attempted at all. -/
theorem execute_success_iff (g : IPGetter) (f : FileWriter) (o : String) :
    ((Execute g f o).1 = ExecOutcome.ret none ↔
      ∃ s, g.getPublicIP = (some s, none) ∧ f.write o (goBytes s) 0o644 = none) ∧
    (∀ e : GoError, g.getPublicIP.2 = some e →
      countWrites (Execute g f o).2 = 0) := by
  rcases hg : g.getPublicIP with ⟨pip, err⟩
  cases err with
  | some e =>
    rw [execute_err_case g f o e (by rw [hg])]
    refine ⟨?_, fun _ _ => rfl⟩
    simp
  | none =>
    cases pip with
    | none =>
      rw [execute_nil_case g f o (by rw [hg])]
      refine ⟨by simp, fun e he => rfl⟩
    | some s =>
      rw [execute_ok_case g f o s (by rw [hg])]
      refine ⟨?_, fun e he => absurd he (by simp)⟩
      constructor
      · intro hres
        have hres2 : ExecOutcome.ret (f.write o (goBytes s) 0o644)
            = ExecOutcome.ret none := hres
        have hw : f.write o (goBytes s) 0o644 = none := by
          injection hres2
        exact ⟨s, rfl, hw⟩
      · rintro ⟨t, ht, hw⟩
        have hst : some s = some t := congrArg Prod.fst ht
        have hst2 : s = t := by injection hst
        subst hst2
        show ExecOutcome.ret (f.write o (goBytes s) 0o644) = ExecOutcome.ret none
        rw [hw]

/-- C8: whenever `Execute` invokes `Write`, the permission argument it
passes is the file mode `0644`, for every input and collaborator. -/
theorem execute_perm_0644
    (g : IPGetter) (f : FileWriter) (o : String)
    (fn : String) (d : List Nat) (p : Nat)
    (hmem : Event.writeCall fn d p ∈ (Execute g f o).2) :
    p = 0o644 := by
  obtain ⟨_, _, _, _, hp⟩ := write_event_shape g f o fn d p hmem
  exact hp

/-- Witness for C8: the write call of the test scenario carries mode
`0644`. -/
theorem execute_perm_0644_witness :
    (0o644 : Nat) = 0o644 :=
  execute_perm_0644 okGetter okWriter "output.txt"
    "output.txt" (goBytes "184.162.7.66") 0o644
    (List.Mem.tail _ (List.Mem.head _))

/-- C9: whenever the concrete adapter `Ipify.GetPublicIP` returns a nil
error, the string pointer it returns is non-nil. -/
theorem ipify_success_pointer_nonnil (env : IpifyEnv)
    (h : (ipifyGetPublicIP env).2 = none) :
    ((ipifyGetPublicIP env).1).isSome = true := by
  unfold ipifyGetPublicIP at h ⊢
  rcases h1 : env.httpGet with e | stream
  · simp [h1] at h
  · rcases h2 : env.readAll stream with e | body
    · simp [h1, h2] at h
    · rcases h3 : env.jsonUnmarshal body with e | result
      · simp [h1, h2, h3] at h
      · simp [h1, h2, h3]

/-- Witness for C9: in an all-success environment the returned pointer is
non-nil. -/
theorem ipify_success_pointer_nonnil_witness :
    ((ipifyGetPublicIP envOk).1).isSome = true :=
  ipify_success_pointer_nonnil envOk rfl

/-- C10: `Execute` dereferences the fetched pointer with no nil check: under
the precondition that a nil error implies a non-nil pointer, `Execute` never
reaches the nil-dereference fault; and for a getter returning `(nil, nil)`
the dereference at the persist step is a nil-pointer fault. -/
theorem execute_nil_deref_safety (g : IPGetter) (f : FileWriter) (o : String)
    (hpre : g.getPublicIP.2 = none → (g.getPublicIP.1).isSome = true) :
    ((Execute g f o).1).isNilDeref = false ∧
    (∀ f2 : FileWriter, ∀ o2 : String,
      (Execute ⟨(none, none)⟩ f2 o2).1 = ExecOutcome.nilDeref) := by
  refine ⟨?_, fun f2 o2 => rfl⟩
  rcases hg : g.getPublicIP with ⟨pip, err⟩
  cases err with
  | some e =>
    rw [execute_err_case g f o e (by rw [hg])]
    rfl
  | none =>
    have hsome := hpre (by rw [hg])
    rw [hg] at hsome
    simp only [Option.isSome] at hsome
    cases pip with
    | none => cases hsome
    | some s =>
      rw [execute_ok_case g f o s (by rw [hg])]
      rfl

/-- Witness for C10: a well-behaved getter never faults, and the `(nil,
nil)` getter faults. -/
theorem execute_nil_deref_safety_witness :
    ((Execute okGetter okWriter "output.txt").1).isNilDeref = false ∧
    (∀ f2 : FileWriter, ∀ o2 : String,
      (Execute ⟨(none, none)⟩ f2 o2).1 = ExecOutcome.nilDeref) :=
  execute_nil_deref_safety okGetter okWriter "output.txt" (fun _ => rfl)

end UnitTestsDemo
